import Mathlib

/-!
Verification of `pkg/loadbalancers/address_manager.go` (ingress-gce).

The Go file implements an address-reservation manager for a GCE regional IP
address.  We embed it shallowly: the remote GCE address service is a value of
type `Svc σ` (four operations, each threading an abstract service state `σ`
and returning a classified result), and each manager operation returns its
result together with the updated manager, the updated service state, and the
list of remote calls it issued (with each call's response recorded), so that
claims about "which remote calls were made" are directly statable.

Go error values are represented by `Option`: `none` is Go's `nil` error.
Remote errors carry only their classification (`ErrKind`), which is all the
Go code ever inspects (`utils.IsNotFoundError`, `utils.IsHTTPErrorCode`,
`utils.IsNetworkTierMismatchGCEError`); errors the manager itself returns
are an inductive `MgrErr` with one constructor per `fmt.Errorf` /
`utils.NewNetworkTierErr` site in the source.
-/

namespace IngressGce

/-- Classification of a remote-service error, as the Go code observes it via
`utils.IsNotFoundError` (HTTP 404), `utils.IsHTTPErrorCode(err, 409)`,
`utils.IsHTTPErrorCode(err, 400)` and `utils.IsNetworkTierMismatchGCEError`. -/
inductive ErrKind where
  | notFound
  | conflict
  | badRequest
  | tierMismatch
  | other
  deriving DecidableEq, Repr

/-- Model of `utils.IsNotFoundError`. -/
def isNotFoundError (e : ErrKind) : Bool := e == ErrKind.notFound

/-- Model of `utils.IsHTTPErrorCode(err, code)` for the two codes the source tests
(409 StatusConflict, 400 StatusBadRequest). -/
def isHTTPErrorCode (e : ErrKind) (code : Nat) : Bool :=
  (code == 409 && e == ErrKind.conflict) || (code == 400 && e == ErrKind.badRequest)

/-- Model of `utils.IsNetworkTierMismatchGCEError`. -/
def isNetworkTierMismatchGCEError (e : ErrKind) : Bool := e == ErrKind.tierMismatch

/-- Constant `cloud.SchemeExternal` from k8s-cloud-provider. -/
def SchemeExternal : String := "EXTERNAL"

/-- Constant `cloud.SchemeInternal` from k8s-cloud-provider. -/
def SchemeInternal : String := "INTERNAL"

/-- Constant `cloud.NetworkTierPremium` from k8s-cloud-provider. -/
def NetworkTierPremium : String := "Premium"

/-- Constant `cloud.NetworkTierStandard` from k8s-cloud-provider. -/
def NetworkTierStandard : String := "Standard"

/-- Model of `cloud.NetworkTier.ToGCEValue` from k8s-cloud-provider: the canonical
remote form of a network tier, `strings.ToUpper` of the tier string
(written via `List.map Char.toUpper` so that it evaluates by `decide`). -/
def toGCEValue (networkTier : String) : String :=
  String.mk (networkTier.data.map Char.toUpper)

/-- The fields of `compute.Address` that the manager reads or writes. -/
structure Address where
  name : String
  description : String
  address : String
  addressType : String
  subnetwork : String
  networkTier : String
  deriving DecidableEq, Repr

/-- Result of a Go `(addr *compute.Address, err error)` lookup:
`found a` is `(a, nil)`, `err k` is `(nil, e)` with `e` classified as `k`. -/
inductive GetRes where
  | found (a : Address)
  | err (e : ErrKind)
  deriving DecidableEq, Repr

/-- The slice of `gce.CloudAddressService` the manager uses.  `σ` is the
(abstract) state of the remote service; every call returns its result and the
successor state.  Argument order follows the Go signatures. -/
structure Svc (σ : Type) where
  getRegionAddress : σ → String → String → GetRes × σ
  getRegionAddressByIP : σ → String → String → GetRes × σ
  reserveRegionAddress : σ → Address → String → Option ErrKind × σ
  deleteRegionAddress : σ → String → String → Option ErrKind × σ

/-- One remote call issued by the manager, with its arguments and the
response the service gave. -/
inductive CallEv where
  | getByName (name region : String) (res : GetRes)
  | getByIP (region ip : String) (res : GetRes)
  | reserve (a : Address) (region : String) (res : Option ErrKind)
  | delete (name region : String) (res : Option ErrKind)
  deriving DecidableEq, Repr

/-- Is the event a `ReserveRegionAddress` call? -/
def isReserveCall : CallEv → Bool
  | CallEv.reserve _ _ _ => true
  | _ => false

/-- Is the event a `DeleteRegionAddress` call? -/
def isDeleteCall : CallEv → Bool
  | CallEv.delete _ _ _ => true
  | _ => false

/-- Is the event a `GetRegionAddress` (lookup-by-name) call? -/
def isGetByNameCall : CallEv → Bool
  | CallEv.getByName _ _ _ => true
  | _ => false

/-- Is the event a `GetRegionAddressByIP` call? -/
def isGetByIPCall : CallEv → Bool
  | CallEv.getByIP _ _ _ => true
  | _ => false

/-- The error part of a call's response (`none` when the call succeeded). -/
def callErr : CallEv → Option ErrKind
  | CallEv.getByName _ _ (GetRes.found _) => none
  | CallEv.getByName _ _ (GetRes.err e) => some e
  | CallEv.getByIP _ _ (GetRes.found _) => none
  | CallEv.getByIP _ _ (GetRes.err e) => some e
  | CallEv.reserve _ _ r => r
  | CallEv.delete _ _ r => r

/-- Did the call fail with an error not classified NotFound? -/
def isNonNotFoundFailure (ev : CallEv) : Bool :=
  match callErr ev with
  | some e => !(e == ErrKind.notFound)
  | none => false

/-- Errors returned by the manager itself; one constructor per
`fmt.Errorf` / `utils.NewNetworkTierErr` construction site in the source,
plus `svcErr` for a remote error propagated verbatim. -/
inductive MgrErr where
  | svcErr (e : ErrKind)
  | ipMismatch (expected actual : String)
  | addressTypeMismatch (expected actual : String)
  | networkTierErr (resource desired received : String)
  | failedReserveNoIP (name : String) (reserveErr : ErrKind)
  | getByIPFailed (ip : String) (getErr reserveErr : ErrKind)
  | validationFailed (addrName : String) (inner : MgrErr)
  deriving DecidableEq, Repr

/-- Enum `IPAddressType` from the source. -/
inductive IPAddressType where
  | IPAddrUndefined
  | IPAddrManaged
  | IPAddrUnmanaged
  deriving DecidableEq, Repr

/-- The `addressManager` struct.  The `svc` field is threaded separately (as
an argument of each operation) so that the manager itself stays first-order;
`logPrefixStr` is the source's log-prefix field (logging only, no logic). -/
structure AddressManager where
  logPrefixStr : String
  name : String
  serviceName : String
  targetIP : String
  addressType : String
  region : String
  subnetURL : String
  tryRelease : Bool
  networkTier : String
  deriving DecidableEq, Repr

/-- Constructor `newAddressManager` (the `svc` argument is threaded separately). -/
def newAddressManager (serviceName region subnetURL name targetIP addressType networkTier : String) :
    AddressManager :=
  { logPrefixStr := "AddressManager(\"" ++ name ++ "\")"
    name := name
    serviceName := serviceName
    targetIP := targetIP
    addressType := addressType
    region := region
    subnetURL := subnetURL
    tryRelease := true
    networkTier := networkTier }

/-- Method `addressManager.validateAddress`. -/
def validateAddress (am : AddressManager) (addr : Address) : Option MgrErr :=
  if am.targetIP != "" && am.targetIP != addr.address then
    some (MgrErr.ipMismatch am.targetIP addr.address)
  else if addr.addressType != am.addressType then
    some (MgrErr.addressTypeMismatch am.addressType addr.addressType)
  else if addr.networkTier != toGCEValue am.networkTier then
    some (MgrErr.networkTierErr ("Static IP (" ++ am.name ++ ")")
      (toGCEValue am.networkTier) addr.networkTier)
  else
    none

/-- Method `addressManager.isManagedAddress`. -/
def isManagedAddress (am : AddressManager) (addr : Address) : Bool :=
  addr.name == am.name

/-- The `newAddr` literal built at the top of `ensureAddressReservation`
(NetworkTier is set only for the external scheme). -/
def mkNewAddr (am : AddressManager) : Address :=
  { name := am.name
    description := "\x7b\"kubernetes.io/service-name\":\"" ++ am.serviceName ++ "\"\x7d"
    address := am.targetIP
    addressType := am.addressType
    subnetwork := am.subnetURL
    networkTier := if am.addressType == SchemeExternal then toGCEValue am.networkTier else "" }

/-- Output of `HoldAddress` / `ensureAddressReservation`: the returned
`(string, IPAddressType, error)` triple plus the updated manager, the updated
service state and the list of remote calls issued. -/
structure HoldOut (σ : Type) where
  address : String
  ipType : IPAddressType
  err : Option MgrErr
  am : AddressManager
  state : σ
  trace : List CallEv
  deriving Repr

/-- Output of `ReleaseAddress` / `TearDownAddressIPIfNetworkTierMismatch`. -/
structure OpOut (σ : Type) where
  err : Option MgrErr
  am : AddressManager
  state : σ
  trace : List CallEv
  deriving Repr

/-- Method `addressManager.ensureAddressReservation`. -/
def ensureAddressReservation {σ : Type} (svc : Svc σ) (am : AddressManager) (s : σ) :
    HoldOut σ :=
  let newAddr := mkNewAddr am
  match svc.reserveRegionAddress s newAddr am.region with
  | (none, s1) =>
    if newAddr.address != "" then
      { address := newAddr.address, ipType := IPAddressType.IPAddrManaged, err := none
        am := am, state := s1, trace := [CallEv.reserve newAddr am.region none] }
    else
      -- auto-assignment: re-fetch by name to learn the assigned address
      match svc.getRegionAddress s1 newAddr.name am.region with
      | (GetRes.found addr, s2) =>
        { address := addr.address, ipType := IPAddressType.IPAddrManaged, err := none
          am := am, state := s2
          trace := [CallEv.reserve newAddr am.region none,
                    CallEv.getByName newAddr.name am.region (GetRes.found addr)] }
      | (GetRes.err e, s2) =>
        { address := "", ipType := IPAddressType.IPAddrUndefined, err := some (MgrErr.svcErr e)
          am := am, state := s2
          trace := [CallEv.reserve newAddr am.region none,
                    CallEv.getByName newAddr.name am.region (GetRes.err e)] }
  | (some reserveErr, s1) =>
    if isNetworkTierMismatchGCEError reserveErr then
      let receivedNetworkTier :=
        if NetworkTierPremium == am.networkTier then NetworkTierStandard else NetworkTierPremium
      { address := "", ipType := IPAddressType.IPAddrUndefined
        err := some (MgrErr.networkTierErr ("Reserved static IP (" ++ am.name ++ ")")
          am.networkTier receivedNetworkTier)
        am := am, state := s1, trace := [CallEv.reserve newAddr am.region (some reserveErr)] }
    else if !(isHTTPErrorCode reserveErr 409) && !(isHTTPErrorCode reserveErr 400) then
      { address := "", ipType := IPAddressType.IPAddrUndefined, err := some (MgrErr.svcErr reserveErr)
        am := am, state := s1, trace := [CallEv.reserve newAddr am.region (some reserveErr)] }
    else if am.targetIP == "" then
      { address := "", ipType := IPAddressType.IPAddrUndefined
        err := some (MgrErr.failedReserveNoIP am.name reserveErr)
        am := am, state := s1, trace := [CallEv.reserve newAddr am.region (some reserveErr)] }
    else
      match svc.getRegionAddressByIP s1 am.region am.targetIP with
      | (GetRes.err e, s2) =>
        { address := "", ipType := IPAddressType.IPAddrUndefined
          err := some (MgrErr.getByIPFailed am.targetIP e reserveErr)
          am := am, state := s2
          trace := [CallEv.reserve newAddr am.region (some reserveErr),
                    CallEv.getByIP am.region am.targetIP (GetRes.err e)] }
      | (GetRes.found addr, s2) =>
        match validateAddress am addr with
        | some verr =>
          { address := "", ipType := IPAddressType.IPAddrUndefined
            err := some (MgrErr.validationFailed addr.name verr)
            am := am, state := s2
            trace := [CallEv.reserve newAddr am.region (some reserveErr),
                      CallEv.getByIP am.region am.targetIP (GetRes.found addr)] }
        | none =>
          if isManagedAddress am addr then
            { address := addr.address, ipType := IPAddressType.IPAddrManaged, err := none
              am := am, state := s2
              trace := [CallEv.reserve newAddr am.region (some reserveErr),
                        CallEv.getByIP am.region am.targetIP (GetRes.found addr)] }
          else
            { address := addr.address, ipType := IPAddressType.IPAddrUnmanaged, err := none
              am := { am with tryRelease := false }, state := s2
              trace := [CallEv.reserve newAddr am.region (some reserveErr),
                        CallEv.getByIP am.region am.targetIP (GetRes.found addr)] }

/-- Method `addressManager.HoldAddress`. -/
def HoldAddress {σ : Type} (svc : Svc σ) (am : AddressManager) (s : σ) : HoldOut σ :=
  match svc.getRegionAddress s am.name am.region with
  | (GetRes.err e, s1) =>
    if !(isNotFoundError e) then
      { address := "", ipType := IPAddressType.IPAddrUndefined, err := some (MgrErr.svcErr e)
        am := am, state := s1, trace := [CallEv.getByName am.name am.region (GetRes.err e)] }
    else
      let out := ensureAddressReservation svc am s1
      { out with trace := CallEv.getByName am.name am.region (GetRes.err e) :: out.trace }
  | (GetRes.found addr, s1) =>
    match validateAddress am addr with
    | none =>
      { address := addr.address, ipType := IPAddressType.IPAddrManaged, err := none
        am := am, state := s1, trace := [CallEv.getByName am.name am.region (GetRes.found addr)] }
    | some _validationError =>
      match svc.deleteRegionAddress s1 addr.name am.region with
      | (some de, s2) =>
        if isNotFoundError de then
          let out := ensureAddressReservation svc am s2
          { out with trace := CallEv.getByName am.name am.region (GetRes.found addr) ::
              CallEv.delete addr.name am.region (some de) :: out.trace }
        else
          { address := "", ipType := IPAddressType.IPAddrUndefined, err := some (MgrErr.svcErr de)
            am := am, state := s2
            trace := [CallEv.getByName am.name am.region (GetRes.found addr),
                      CallEv.delete addr.name am.region (some de)] }
      | (none, s2) =>
        let out := ensureAddressReservation svc am s2
        { out with trace := CallEv.getByName am.name am.region (GetRes.found addr) ::
            CallEv.delete addr.name am.region none :: out.trace }

/-- Method `addressManager.ReleaseAddress`. -/
def ReleaseAddress {σ : Type} (svc : Svc σ) (am : AddressManager) (s : σ) : OpOut σ :=
  if !am.tryRelease then
    { err := none, am := am, state := s, trace := [] }
  else
    match svc.deleteRegionAddress s am.name am.region with
    | (some e, s1) =>
      if isNotFoundError e then
        { err := none, am := am, state := s1, trace := [CallEv.delete am.name am.region (some e)] }
      else
        { err := some (MgrErr.svcErr e), am := am, state := s1
          trace := [CallEv.delete am.name am.region (some e)] }
    | (none, s1) =>
      { err := none, am := am, state := s1, trace := [CallEv.delete am.name am.region none] }

/-- Method `addressManager.TearDownAddressIPIfNetworkTierMismatch`.  Note: the
source's delete call on the managed-with-wrong-tier branch passes
`am.targetIP` in the `region` argument position of `DeleteRegionAddress`
(line 257 of the source); the embedding reproduces that argument verbatim. -/
def TearDownAddressIPIfNetworkTierMismatch {σ : Type} (svc : Svc σ) (am : AddressManager)
    (s : σ) : OpOut σ :=
  if am.targetIP == "" then
    { err := none, am := am, state := s, trace := [] }
  else
    match svc.getRegionAddressByIP s am.region am.targetIP with
    | (GetRes.err e, s1) =>
      if isNotFoundError e then
        { err := none, am := am, state := s1
          trace := [CallEv.getByIP am.region am.targetIP (GetRes.err e)] }
      else
        { err := some (MgrErr.svcErr e), am := am, state := s1
          trace := [CallEv.getByIP am.region am.targetIP (GetRes.err e)] }
    | (GetRes.found addr, s1) =>
      if addr.networkTier != toGCEValue am.networkTier then
        if !(isManagedAddress am addr) then
          { err := some (MgrErr.networkTierErr ("User specific address IP (" ++ am.name ++ ")")
              am.networkTier addr.networkTier)
            am := am, state := s1
            trace := [CallEv.getByIP am.region am.targetIP (GetRes.found addr)] }
        else
          -- delete failure is logged and swallowed in the source
          match svc.deleteRegionAddress s1 addr.name am.targetIP with
          | (de, s2) =>
            { err := none, am := am, state := s2
              trace := [CallEv.getByIP am.region am.targetIP (GetRes.found addr),
                        CallEv.delete addr.name am.targetIP de] }
      else
        { err := none, am := am, state := s1
          trace := [CallEv.getByIP am.region am.targetIP (GetRes.found addr)] }

/-! ## Concrete service instances used as witnesses -/

/-- A user-owned address record holding the manager's target IP. -/
def userRec : Address :=
  { name := "user-addr", description := "", address := "1.2.3.4"
    addressType := "INTERNAL", subnetwork := "", networkTier := "PREMIUM" }

/-- A manager under test: internal scheme, Premium tier, fixed target IP. -/
def am0 : AddressManager :=
  newAddressManager "default/svc" "us-west1" "subnet-a" "lb-name" "1.2.3.4" "INTERNAL" "Premium"

/-- Stateless service: name lookup misses, reservation conflicts, lookup by
IP finds the user-owned record `userRec`. -/
def conflictSvc : Svc Unit :=
  { getRegionAddress := fun _ _ _ => (GetRes.err ErrKind.notFound, ())
    getRegionAddressByIP := fun _ _ _ => (GetRes.found userRec, ())
    reserveRegionAddress := fun _ _ _ => (some ErrKind.conflict, ())
    deleteRegionAddress := fun _ _ _ => (none, ()) }

/-- Like `userRec` but carrying the manager's own name (self-conflict). -/
def selfRec : Address := { userRec with name := "lb-name" }

/-- Stateless service whose by-IP lookup returns a record named like the
manager (self-conflict recovery scenario). -/
def selfConflictSvc : Svc Unit :=
  { conflictSvc with getRegionAddressByIP := fun _ _ _ => (GetRes.found selfRec, ()) }

/-- The record the auto-assignment scenario's by-name lookup returns. -/
def autoRec : Address :=
  { name := "lb-name", description := "", address := "10.11.12.13"
    addressType := "INTERNAL", subnetwork := "", networkTier := "PREMIUM" }

/-- Stateless service: reservation succeeds, by-name lookup returns
`autoRec` (auto-assignment scenario). -/
def autoSvc : Svc Unit :=
  { getRegionAddress := fun _ _ _ => (GetRes.found autoRec, ())
    getRegionAddressByIP := fun _ _ _ => (GetRes.err ErrKind.notFound, ())
    reserveRegionAddress := fun _ _ _ => (none, ())
    deleteRegionAddress := fun _ _ _ => (none, ()) }

/-- A manager-owned record whose network tier is wrong. -/
def wrongTierRec : Address :=
  { name := "lb-name", description := "", address := "1.2.3.4"
    addressType := "INTERNAL", subnetwork := "", networkTier := "STANDARD" }

/-- Stateless service: by-IP lookup finds the manager-owned wrong-tier
record, and every delete fails with an unclassified error. -/
def badDeleteSvc : Svc Unit :=
  { getRegionAddress := fun _ _ _ => (GetRes.err ErrKind.notFound, ())
    getRegionAddressByIP := fun _ _ _ => (GetRes.found wrongTierRec, ())
    reserveRegionAddress := fun _ _ _ => (none, ())
    deleteRegionAddress := fun _ _ _ => (some ErrKind.other, ()) }

/-! ## A concrete, sequentially consistent remote service

Modelled from the spec: the remote address service itself is an external
collaborator whose code is not part of this repository; section 6 of the
spec gives its four verbs (get-by-name, get-by-IP, reserve, delete) and
their outcome classification, and sections 1 and 3 describe it as a store
of named regional address records, unique per name, with reservation
conflicts (Conflict for internal, BadRequest for external) when the name or
the IP is already claimed, auto-assignment of an address when the requested
IP is empty, and a default (premium) network tier when none is requested.
This instance is used to state sequential (no-interference) properties such
as idempotence of `HoldAddress`. -/

/-- The remote store: a list of address records (names unique by
construction of the operations below). -/
def lookupByName (s : List Address) (n : String) : Option Address :=
  s.find? (fun a => a.name == n)

/-- Lookup of a record by its IP. -/
def lookupByIP (s : List Address) (ip : String) : Option Address :=
  s.find? (fun a => a.address == ip)

/-- Deterministic IP chosen by the service when the reservation requests
auto-assignment. -/
def freshIP (s : List Address) : String := "10.0.0." ++ toString s.length

/-- The record the service stores for a reservation request: an empty
requested address is auto-assigned, an empty requested tier defaults to
the premium canonical value. -/
def reservedRecord (s : List Address) (a : Address) : Address :=
  { a with
    address := if a.address == "" then freshIP s else a.address
    networkTier := if a.networkTier == "" then "PREMIUM" else a.networkTier }

/-- The concrete service over the list-of-records state. -/
def gceSvc : Svc (List Address) :=
  { getRegionAddress := fun s n _r =>
      match lookupByName s n with
      | some a => (GetRes.found a, s)
      | none => (GetRes.err ErrKind.notFound, s)
    getRegionAddressByIP := fun s _r ip =>
      match lookupByIP s ip with
      | some a => (GetRes.found a, s)
      | none => (GetRes.err ErrKind.notFound, s)
    reserveRegionAddress := fun s a _r =>
      if (lookupByName s a.name).isSome then
        (some ErrKind.conflict, s)
      else if a.address != "" && (lookupByIP s a.address).isSome then
        (some (if a.addressType == SchemeInternal then ErrKind.conflict else ErrKind.badRequest), s)
      else
        (none, reservedRecord s a :: s)
    deleteRegionAddress := fun s n _r =>
      match lookupByName s n with
      | some _ => (none, s.filter (fun a => !(a.name == n)))
      | none => (some ErrKind.notFound, s) }

/-! ## Helper lemmas -/

/-- The reservation step either leaves the manager unchanged (and does not
classify the address Unmanaged) or only flips `tryRelease` to `false` (and
classifies the address Unmanaged). -/
theorem ensure_am_cases {σ : Type} (svc : Svc σ) (am : AddressManager) (s : σ) :
    ((ensureAddressReservation svc am s).am = am ∧
      (ensureAddressReservation svc am s).ipType ≠ IPAddressType.IPAddrUnmanaged) ∨
    ((ensureAddressReservation svc am s).am = { am with tryRelease := false } ∧
      (ensureAddressReservation svc am s).ipType = IPAddressType.IPAddrUnmanaged) := by
  simp only [ensureAddressReservation]
  repeat' split <;> try simp_all

/-- Lift of `ensure_am_cases` to `HoldAddress`. -/
theorem holdAddress_am_cases {σ : Type} (svc : Svc σ) (am : AddressManager) (s : σ) :
    ((HoldAddress svc am s).am = am ∧
      (HoldAddress svc am s).ipType ≠ IPAddressType.IPAddrUnmanaged) ∨
    ((HoldAddress svc am s).am = { am with tryRelease := false } ∧
      (HoldAddress svc am s).ipType = IPAddressType.IPAddrUnmanaged) := by
  simp only [HoldAddress]
  repeat' split <;> try simp_all
  · exact ensure_am_cases svc am _
  · exact ensure_am_cases svc am _
  · exact ensure_am_cases svc am _

/-- The operation `ReleaseAddress` never modifies the manager (in particular never resets
`tryRelease`). -/
theorem releaseAddress_am_eq {σ : Type} (svc : Svc σ) (am : AddressManager) (s : σ) :
    (ReleaseAddress svc am s).am = am := by
  simp only [ReleaseAddress]
  repeat' split <;> try simp

/-- The operation `TearDownAddressIPIfNetworkTierMismatch` never modifies the manager. -/
theorem tearDown_am_eq {σ : Type} (svc : Svc σ) (am : AddressManager) (s : σ) :
    (TearDownAddressIPIfNetworkTierMismatch svc am s).am = am := by
  simp only [TearDownAddressIPIfNetworkTierMismatch]
  repeat' split <;> try simp

/-- With `tryRelease = false`, `ReleaseAddress` returns nil immediately,
changes nothing and issues no remote call. -/
theorem releaseAddress_skip {σ : Type} (svc : Svc σ) (am : AddressManager) (s : σ)
    (h : am.tryRelease = false) :
    ReleaseAddress svc am s = { err := none, am := am, state := s, trace := [] } := by
  simp [ReleaseAddress, h]

/-! ## Claim theorems -/

/-- C4: `validateAddress` accepts (returns `nil`) iff the target IP is empty
or equals the record's address exactly, the record's address type equals the
desired scheme exactly, and the record's network tier equals the desired
tier's canonical remote value exactly; any single mismatch yields a non-nil
error. -/
theorem claim_C4_validateAddress_complete (am : AddressManager) (addr : Address) :
    validateAddress am addr = none ↔
      (am.targetIP = "" ∨ am.targetIP = addr.address) ∧
      addr.addressType = am.addressType ∧
      addr.networkTier = toGCEValue am.networkTier := by
  unfold validateAddress
  split
  next h =>
    simp only [Bool.and_eq_true, bne_iff_ne, ne_eq] at h
    simp only [reduceCtorEq, false_iff, not_and]
    rintro (h1 | h1) <;> exact absurd h1 (by tauto)
  next h =>
    simp only [Bool.and_eq_true, bne_iff_ne, ne_eq, not_and, not_not] at h
    split
    next h2 =>
      simp only [bne_iff_ne, ne_eq] at h2
      simp only [reduceCtorEq, false_iff, not_and]
      intro _ h3
      exact absurd h3 h2
    next h2 =>
      simp only [bne_iff_ne, ne_eq, not_not] at h2
      split
      next h3 =>
        simp only [bne_iff_ne, ne_eq] at h3
        simp only [reduceCtorEq, false_iff, not_and]
        intro _ _ h4
        exact absurd h4 h3
      next h3 =>
        simp only [bne_iff_ne, ne_eq, not_not] at h3
        simp only [true_iff]
        refine ⟨?_, h2, h3⟩
        by_cases h0 : am.targetIP = ""
        · exact Or.inl h0
        · exact Or.inr (h h0)

/-- Claim C5: if the reservation attempt fails with Conflict or BadRequest,
the target IP is non-empty, and the follow-up GetByIP returns a record that
passes validation and is named like the manager, then the reservation step
(and hence `HoldAddress` reaching it after a not-found name lookup) returns
that record's address with classification Managed and a nil error, and the
recorded call trace contains no delete call. -/
theorem claim_C5_self_conflict_recovery {σ : Type} (svc : Svc σ) (am : AddressManager)
    (s s1 s2 : σ) (e : ErrKind) (rec : Address)
    (hres : svc.reserveRegionAddress s (mkNewAddr am) am.region = (some e, s1))
    (he : e = ErrKind.conflict ∨ e = ErrKind.badRequest)
    (htip : am.targetIP ≠ "")
    (hget : svc.getRegionAddressByIP s1 am.region am.targetIP = (GetRes.found rec, s2))
    (hval : validateAddress am rec = none)
    (hname : rec.name = am.name) :
    ensureAddressReservation svc am s =
      { address := rec.address, ipType := IPAddressType.IPAddrManaged, err := none
        am := am, state := s2
        trace := [CallEv.reserve (mkNewAddr am) am.region (some e),
                  CallEv.getByIP am.region am.targetIP (GetRes.found rec)] } ∧
    (∀ t0 : σ, svc.getRegionAddress t0 am.name am.region = (GetRes.err ErrKind.notFound, s) →
      HoldAddress svc am t0 =
        { address := rec.address, ipType := IPAddressType.IPAddrManaged, err := none
          am := am, state := s2
          trace := [CallEv.getByName am.name am.region (GetRes.err ErrKind.notFound),
                    CallEv.reserve (mkNewAddr am) am.region (some e),
                    CallEv.getByIP am.region am.targetIP (GetRes.found rec)] }) := by
  have hmain : ensureAddressReservation svc am s =
      { address := rec.address, ipType := IPAddressType.IPAddrManaged, err := none
        am := am, state := s2
        trace := [CallEv.reserve (mkNewAddr am) am.region (some e),
                  CallEv.getByIP am.region am.targetIP (GetRes.found rec)] } := by
    rcases he with rfl | rfl <;>
      simp [ensureAddressReservation, hres, isNetworkTierMismatchGCEError, isHTTPErrorCode,
        htip, hget, hval, isManagedAddress, hname]
  refine ⟨hmain, fun t0 ht0 => ?_⟩
  simp [HoldAddress, ht0, isNotFoundError, hmain]

/-- Witness for C5: a concrete self-conflict run in which `HoldAddress`
returns the rediscovered record's address as Managed without any delete. -/
theorem claim_C5_witness :
    HoldAddress selfConflictSvc am0 () =
      { address := selfRec.address, ipType := IPAddressType.IPAddrManaged, err := none
        am := am0, state := ()
        trace := [CallEv.getByName am0.name am0.region (GetRes.err ErrKind.notFound),
                  CallEv.reserve (mkNewAddr am0) am0.region (some ErrKind.conflict),
                  CallEv.getByIP am0.region am0.targetIP (GetRes.found selfRec)] } :=
  (claim_C5_self_conflict_recovery selfConflictSvc am0 () () () ErrKind.conflict selfRec
    rfl (Or.inl rfl) (by decide) rfl (by decide) rfl).2 () rfl

/-- Claim C6: if the reservation attempt fails with Conflict or BadRequest
and the configured target IP is empty, the reservation step (and hence
`HoldAddress` reaching it after a not-found name lookup) returns
classification Undefined with a non-nil error, and the recorded call trace
shows no GetByIP call was made. -/
theorem claim_C6_unresolvable_conflict {σ : Type} (svc : Svc σ) (am : AddressManager)
    (s s1 : σ) (e : ErrKind)
    (hres : svc.reserveRegionAddress s (mkNewAddr am) am.region = (some e, s1))
    (he : e = ErrKind.conflict ∨ e = ErrKind.badRequest)
    (htip : am.targetIP = "") :
    ensureAddressReservation svc am s =
      { address := "", ipType := IPAddressType.IPAddrUndefined
        err := some (MgrErr.failedReserveNoIP am.name e)
        am := am, state := s1
        trace := [CallEv.reserve (mkNewAddr am) am.region (some e)] } ∧
    (∀ t0 : σ, svc.getRegionAddress t0 am.name am.region = (GetRes.err ErrKind.notFound, s) →
      HoldAddress svc am t0 =
        { address := "", ipType := IPAddressType.IPAddrUndefined
          err := some (MgrErr.failedReserveNoIP am.name e)
          am := am, state := s1
          trace := [CallEv.getByName am.name am.region (GetRes.err ErrKind.notFound),
                    CallEv.reserve (mkNewAddr am) am.region (some e)] }) := by
  have hmain : ensureAddressReservation svc am s =
      { address := "", ipType := IPAddressType.IPAddrUndefined
        err := some (MgrErr.failedReserveNoIP am.name e)
        am := am, state := s1
        trace := [CallEv.reserve (mkNewAddr am) am.region (some e)] } := by
    rcases he with rfl | rfl <;>
      simp [ensureAddressReservation, hres, isNetworkTierMismatchGCEError, isHTTPErrorCode, htip]
  refine ⟨hmain, fun t0 ht0 => ?_⟩
  simp [HoldAddress, ht0, isNotFoundError, hmain]

/-- The manager of the unresolvable-conflict witness: like `am0` but with no
target IP configured. -/
def am6 : AddressManager := { am0 with targetIP := "" }

/-- Witness for C6: a concrete run in which the reservation conflicts with an
empty target IP and `HoldAddress` fails Undefined without a GetByIP call. -/
theorem claim_C6_witness :
    HoldAddress conflictSvc am6 () =
      { address := "", ipType := IPAddressType.IPAddrUndefined
        err := some (MgrErr.failedReserveNoIP am6.name ErrKind.conflict)
        am := am6, state := ()
        trace := [CallEv.getByName am6.name am6.region (GetRes.err ErrKind.notFound),
                  CallEv.reserve (mkNewAddr am6) am6.region (some ErrKind.conflict)] } :=
  (claim_C6_unresolvable_conflict conflictSvc am6 () () ErrKind.conflict
    rfl (Or.inl rfl) rfl).2 () rfl

/-- Claim C7: when the reservation call succeeds and echoes back an empty
address (the echoed address is the `newAddr.Address` field, i.e. the target
IP), the reservation step performs exactly one follow-up GetByName and
returns that record's address with classification Managed and nil error; if
that follow-up lookup fails, its error is returned with classification
Undefined. -/
theorem claim_C7_auto_assignment {σ : Type} (svc : Svc σ) (am : AddressManager) (s s1 : σ)
    (hres : svc.reserveRegionAddress s (mkNewAddr am) am.region = (none, s1))
    (htip : am.targetIP = "") :
    (∀ (a : Address) (s2 : σ),
      svc.getRegionAddress s1 am.name am.region = (GetRes.found a, s2) →
      ensureAddressReservation svc am s =
        { address := a.address, ipType := IPAddressType.IPAddrManaged, err := none
          am := am, state := s2
          trace := [CallEv.reserve (mkNewAddr am) am.region none,
                    CallEv.getByName am.name am.region (GetRes.found a)] } ∧
      ((ensureAddressReservation svc am s).trace.filter isGetByNameCall).length = 1) ∧
    (∀ (e : ErrKind) (s2 : σ),
      svc.getRegionAddress s1 am.name am.region = (GetRes.err e, s2) →
      ensureAddressReservation svc am s =
        { address := "", ipType := IPAddressType.IPAddrUndefined
          err := some (MgrErr.svcErr e)
          am := am, state := s2
          trace := [CallEv.reserve (mkNewAddr am) am.region none,
                    CallEv.getByName am.name am.region (GetRes.err e)] }) := by
  constructor
  · intro a s2 hget
    have hmain : ensureAddressReservation svc am s =
        { address := a.address, ipType := IPAddressType.IPAddrManaged, err := none
          am := am, state := s2
          trace := [CallEv.reserve (mkNewAddr am) am.region none,
                    CallEv.getByName am.name am.region (GetRes.found a)] } := by
      have hname : (mkNewAddr am).name = am.name := rfl
      have haddr : (mkNewAddr am).address = am.targetIP := rfl
      simp [ensureAddressReservation, hres, haddr, htip, hname, hget]
    refine ⟨hmain, ?_⟩
    rw [hmain]
    simp [isGetByNameCall, isReserveCall]
  · intro e s2 hget
    have hname : (mkNewAddr am).name = am.name := rfl
    have haddr : (mkNewAddr am).address = am.targetIP := rfl
    simp [ensureAddressReservation, hres, haddr, htip, hname, hget]

/-- Witness for C7: a concrete auto-assignment run; the reservation succeeds
with empty target IP and the assigned address is learned by one GetByName. -/
theorem claim_C7_witness :
    ensureAddressReservation autoSvc am6 () =
      { address := autoRec.address, ipType := IPAddressType.IPAddrManaged, err := none
        am := am6, state := ()
        trace := [CallEv.reserve (mkNewAddr am6) am6.region none,
                  CallEv.getByName am6.name am6.region (GetRes.found autoRec)] } :=
  ((claim_C7_auto_assignment autoSvc am6 () () rfl rfl).1 autoRec () rfl).1

/-- Claim C1: if `HoldAddress` returns classification Unmanaged then the
session's release-permitted flag (`tryRelease`) is false afterward, every
subsequent `ReleaseAddress` on that manager returns nil immediately with no
remote call (in particular no delete), and any further `HoldAddress` keeps
the flag false. -/
theorem claim_C1_unmanaged_release_safety {σ : Type} (svc : Svc σ) (am : AddressManager)
    (s : σ)
    (h : (HoldAddress svc am s).ipType = IPAddressType.IPAddrUnmanaged) :
    (HoldAddress svc am s).am.tryRelease = false ∧
    (∀ s2 : σ, ReleaseAddress svc (HoldAddress svc am s).am s2 =
      { err := none, am := (HoldAddress svc am s).am, state := s2, trace := [] }) ∧
    (∀ s2 : σ, (HoldAddress svc (HoldAddress svc am s).am s2).am.tryRelease = false) := by
  have hf : (HoldAddress svc am s).am.tryRelease = false := by
    rcases holdAddress_am_cases svc am s with ⟨_, hne⟩ | ⟨heq, _⟩
    · exact absurd h hne
    · rw [heq]
  refine ⟨hf, fun s2 => releaseAddress_skip svc _ s2 hf, fun s2 => ?_⟩
  rcases holdAddress_am_cases svc (HoldAddress svc am s).am s2 with ⟨heq, _⟩ | ⟨heq, _⟩
  · rw [heq]
    exact hf
  · rw [heq]

/-- Witness for C1: the concrete conflict run classifies the address
Unmanaged, after which `ReleaseAddress` is a no-op returning nil. -/
theorem claim_C1_witness :
    (HoldAddress conflictSvc am0 ()).am.tryRelease = false ∧
    ReleaseAddress conflictSvc (HoldAddress conflictSvc am0 ()).am () =
      { err := none, am := (HoldAddress conflictSvc am0 ()).am, state := (), trace := [] } :=
  ⟨(claim_C1_unmanaged_release_safety conflictSvc am0 () (by decide)).1,
   (claim_C1_unmanaged_release_safety conflictSvc am0 () (by decide)).2.1 ()⟩

/-- Claim C10: the session flag `tryRelease` is monotone: it is true at
construction, `HoldAddress` either leaves the manager unchanged or only
flips the flag to false (and does so only when classifying Unmanaged),
`ReleaseAddress` and `TearDownAddressIPIfNetworkTierMismatch` never modify
the manager, and once the flag is false `ReleaseAddress` skips the delete
(returns nil with no remote call) forever. -/
theorem claim_C10_tryRelease_monotone :
    (∀ serviceName region subnetURL name targetIP addressType networkTier : String,
      (newAddressManager serviceName region subnetURL name targetIP addressType
        networkTier).tryRelease = true) ∧
    (∀ (σ : Type) (svc : Svc σ) (am : AddressManager) (s : σ),
      ((HoldAddress svc am s).am = am ∨
        (HoldAddress svc am s).am = { am with tryRelease := false }) ∧
      ((HoldAddress svc am s).am ≠ am →
        (HoldAddress svc am s).ipType = IPAddressType.IPAddrUnmanaged) ∧
      ((HoldAddress svc am s).am.tryRelease = true → am.tryRelease = true) ∧
      (ReleaseAddress svc am s).am = am ∧
      (TearDownAddressIPIfNetworkTierMismatch svc am s).am = am) ∧
    (∀ (σ : Type) (svc : Svc σ) (am : AddressManager) (s : σ), am.tryRelease = false →
      ReleaseAddress svc am s = { err := none, am := am, state := s, trace := [] }) := by
  refine ⟨fun _ _ _ _ _ _ _ => rfl, fun σ svc am s => ?_,
    fun σ svc am s h => releaseAddress_skip svc am s h⟩
  rcases holdAddress_am_cases svc am s with ⟨heq, _⟩ | ⟨heq, hun⟩
  · refine ⟨Or.inl heq, fun hne2 => absurd heq hne2, fun ht => ?_,
      releaseAddress_am_eq svc am s, tearDown_am_eq svc am s⟩
    rwa [heq] at ht
  · refine ⟨Or.inr heq, fun _ => hun, fun ht => ?_,
      releaseAddress_am_eq svc am s, tearDown_am_eq svc am s⟩
    rw [heq] at ht
    simp at ht

/-- Witness for C10: once the flag is false, a concrete `ReleaseAddress`
run is a nil-returning no-op with an empty call trace. -/
theorem claim_C10_witness :
    ReleaseAddress conflictSvc { am0 with tryRelease := false } () =
      { err := none, am := { am0 with tryRelease := false }, state := (), trace := [] } :=
  claim_C10_tryRelease_monotone.2.2 Unit conflictSvc { am0 with tryRelease := false } () rfl

/-- Helper for C9 at the reservation step: the returned error is non-nil iff
the classification is Undefined, and the returned address is empty iff the
classification is Undefined, assuming every record the service returns
carries a non-empty address. -/
theorem ensure_err_undefined {σ : Type} (svc : Svc σ) (am : AddressManager) (s : σ)
    (hN : ∀ (t : σ) (n r : String) (a : Address) (t2 : σ),
      svc.getRegionAddress t n r = (GetRes.found a, t2) → a.address ≠ "")
    (hI : ∀ (t : σ) (r ip : String) (a : Address) (t2 : σ),
      svc.getRegionAddressByIP t r ip = (GetRes.found a, t2) → a.address ≠ "") :
    ((ensureAddressReservation svc am s).err ≠ none ↔
      (ensureAddressReservation svc am s).ipType = IPAddressType.IPAddrUndefined) ∧
    ((ensureAddressReservation svc am s).address = "" ↔
      (ensureAddressReservation svc am s).ipType = IPAddressType.IPAddrUndefined) := by
  simp only [ensureAddressReservation]
  repeat' split <;> try simp_all
  all_goals first
    | exact hN _ _ _ _ _ (by assumption)
    | exact hI _ _ _ _ _ (by assumption)

/-- Claim C9: on every `HoldAddress` execution, the returned error is
non-nil iff the returned classification is Undefined, and the returned
address string is empty iff the classification is Undefined, assuming every
record the remote service returns carries a non-empty address. -/
theorem claim_C9_err_iff_undefined {σ : Type} (svc : Svc σ) (am : AddressManager) (s : σ)
    (hN : ∀ (t : σ) (n r : String) (a : Address) (t2 : σ),
      svc.getRegionAddress t n r = (GetRes.found a, t2) → a.address ≠ "")
    (hI : ∀ (t : σ) (r ip : String) (a : Address) (t2 : σ),
      svc.getRegionAddressByIP t r ip = (GetRes.found a, t2) → a.address ≠ "") :
    ((HoldAddress svc am s).err ≠ none ↔
      (HoldAddress svc am s).ipType = IPAddressType.IPAddrUndefined) ∧
    ((HoldAddress svc am s).address = "" ↔
      (HoldAddress svc am s).ipType = IPAddressType.IPAddrUndefined) := by
  simp only [HoldAddress]
  repeat' split <;> try simp_all
  all_goals first
    | exact hN _ _ _ _ _ (by assumption)
    | exact hI _ _ _ _ _ (by assumption)
    | exact ensure_err_undefined svc am _ hN hI

/-- Witness for C9: the concrete conflict run satisfies both equivalences
(its hypotheses hold for `conflictSvc`, whose found records carry the
non-empty address of `userRec`). -/
theorem claim_C9_witness :
    ((HoldAddress conflictSvc am0 ()).err ≠ none ↔
      (HoldAddress conflictSvc am0 ()).ipType = IPAddressType.IPAddrUndefined) ∧
    ((HoldAddress conflictSvc am0 ()).address = "" ↔
      (HoldAddress conflictSvc am0 ()).ipType = IPAddressType.IPAddrUndefined) :=
  claim_C9_err_iff_undefined conflictSvc am0 ()
    (by
      intro t n r a t2 h
      simp [conflictSvc] at h)
    (by
      intro t r ip a t2 h
      simp [conflictSvc] at h
      rcases h with ⟨rfl, rfl⟩
      decide)

/-- An event is benign when, if it is not a reservation attempt, it did not
fail with a non-NotFound error, and if it is a reservation attempt, any
error it returned is classified Conflict or BadRequest. -/
def benignEvent (ev : CallEv) : Prop :=
  (isReserveCall ev = false → isNonNotFoundFailure ev = false) ∧
  (isReserveCall ev = true → ∀ e : ErrKind, callErr ev = some e →
    e = ErrKind.conflict ∨ e = ErrKind.badRequest)

/-- If the reservation step returns nil, every remote call it made was
benign. -/
theorem ensure_error_events {σ : Type} (svc : Svc σ) (am : AddressManager) (s : σ)
    (h : (ensureAddressReservation svc am s).err = none) :
    ∀ ev ∈ (ensureAddressReservation svc am s).trace, benignEvent ev := by
  generalize hout : ensureAddressReservation svc am s = out at h ⊢
  obtain ⟨addr, ipt, err, am2, st, tr⟩ := out
  simp only [ensureAddressReservation] at hout
  repeat' split at hout <;>
    try simp_all [benignEvent, isReserveCall, isNonNotFoundFailure, callErr] <;>
    try tauto
  all_goals (obtain ⟨-, -, -, -, h5⟩ := hout; subst h5)
  all_goals intro ev hev
  all_goals simp only [List.mem_cons, List.not_mem_nil, or_false] at hev
  all_goals rcases hev with rfl | rfl
  all_goals
    try simp_all [benignEvent, isReserveCall, isNonNotFoundFailure, callErr, isHTTPErrorCode]
  all_goals tauto

/-- If `HoldAddress` returns nil, every remote call it made was benign. -/
theorem holdAddress_error_events {σ : Type} (svc : Svc σ) (am : AddressManager) (s : σ)
    (h : (HoldAddress svc am s).err = none) :
    ∀ ev ∈ (HoldAddress svc am s).trace, benignEvent ev := by
  simp only [HoldAddress] at h ⊢
  rcases hget : svc.getRegionAddress s am.name am.region with ⟨gr, s1⟩
  rw [hget] at h
  rcases gr with a | e <;> dsimp only at h ⊢
  · -- found a
    rcases hval : validateAddress am a with _ | verr <;> rw [hval] at h <;> dsimp only at h ⊢
    · -- valid: single getByName event
      intro ev hev
      simp only [List.mem_cons, List.not_mem_nil, or_false] at hev
      subst hev
      simp [benignEvent, isReserveCall, isNonNotFoundFailure, callErr]
    · -- invalid: delete then ensure
      rcases hdel : svc.deleteRegionAddress s1 a.name am.region with ⟨de, s2⟩
      rw [hdel] at h
      rcases de with _ | de0 <;> dsimp only at h ⊢
      · -- delete succeeded
        intro ev hev
        simp only [List.mem_cons] at hev
        rcases hev with rfl | rfl | hev
        · simp [benignEvent, isReserveCall, isNonNotFoundFailure, callErr]
        · simp [benignEvent, isReserveCall, isNonNotFoundFailure, callErr]
        · exact ensure_error_events svc am s2 (by simpa using h) ev hev
      · -- delete returned an error
        by_cases hnf : isNotFoundError de0
        · rw [if_pos hnf] at h ⊢
          intro ev hev
          simp only [List.mem_cons] at hev
          rcases hev with rfl | rfl | hev
          · simp [benignEvent, isReserveCall, isNonNotFoundFailure, callErr]
          · have hde : de0 = ErrKind.notFound := by
              simpa [isNotFoundError] using hnf
            subst hde
            simp [benignEvent, isReserveCall, isNonNotFoundFailure, callErr]
          · exact ensure_error_events svc am s2 (by simpa using h) ev hev
        · rw [if_neg hnf] at h
          simp at h
  · -- err e
    by_cases hnf : isNotFoundError e
    · have hcond : (!isNotFoundError e) = false := by simp [hnf]
      rw [if_neg (by simp [hcond])] at h ⊢
      intro ev hev
      simp only [List.mem_cons] at hev
      rcases hev with rfl | hev
      · have hde : e = ErrKind.notFound := by simpa [isNotFoundError] using hnf
        subst hde
        simp [benignEvent, isReserveCall, isNonNotFoundFailure, callErr]
      · exact ensure_error_events svc am s1 (by simpa using h) ev hev
    · have hcond : (!isNotFoundError e) = true := by simp [hnf]
      rw [if_pos hcond] at h
      simp at h

/-- A non-NotFound failure of `ReleaseAddress`'s only remote call forces a
non-nil return. -/
theorem releaseAddress_error_events {σ : Type} (svc : Svc σ) (am : AddressManager) (s : σ) :
    ∀ ev ∈ (ReleaseAddress svc am s).trace,
      isNonNotFoundFailure ev = true → (ReleaseAddress svc am s).err ≠ none := by
  simp only [ReleaseAddress]
  repeat' split <;> try simp_all [isNonNotFoundFailure, callErr, isNotFoundError]

/-- If `TearDownAddressIPIfNetworkTierMismatch` returns nil, none of its
non-delete remote calls failed with a non-NotFound error (the best-effort
delete is the only call whose failure is swallowed). -/
theorem tearDown_error_events {σ : Type} (svc : Svc σ) (am : AddressManager) (s : σ)
    (h : (TearDownAddressIPIfNetworkTierMismatch svc am s).err = none) :
    ∀ ev ∈ (TearDownAddressIPIfNetworkTierMismatch svc am s).trace,
      isDeleteCall ev = false → isNonNotFoundFailure ev = false := by
  generalize hout : TearDownAddressIPIfNetworkTierMismatch svc am s = out at h ⊢
  obtain ⟨err, am2, st, tr⟩ := out
  simp only [TearDownAddressIPIfNetworkTierMismatch] at hout
  repeat' split at hout <;>
    try simp_all [isDeleteCall, isNonNotFoundFailure, callErr, isNotFoundError]
  all_goals (obtain ⟨-, -, h3⟩ := hout; subst h3)
  all_goals intro ev hev
  all_goals simp only [List.mem_cons, List.not_mem_nil, or_false] at hev
  all_goals rcases hev with rfl | rfl
  all_goals simp [isDeleteCall, isNonNotFoundFailure, callErr]

/-- Claim C3 (amended): `ReleaseAddress` never returns nil after its delete
failed with a non-NotFound error; a nil-returning `HoldAddress` made only
benign calls — every get or delete it issued succeeded or returned
NotFound, and a failed reservation attempt it recovered from had returned
Conflict or BadRequest; a nil-returning
`TearDownAddressIPIfNetworkTierMismatch` saw no non-NotFound failure on any
call other than its best-effort delete, whose failure the source logs and
swallows. -/
theorem claim_C3_error_propagation {σ : Type} (svc : Svc σ) (am : AddressManager) (s : σ) :
    (∀ ev ∈ (ReleaseAddress svc am s).trace,
      isNonNotFoundFailure ev = true → (ReleaseAddress svc am s).err ≠ none) ∧
    ((HoldAddress svc am s).err = none →
      ∀ ev ∈ (HoldAddress svc am s).trace, benignEvent ev) ∧
    ((TearDownAddressIPIfNetworkTierMismatch svc am s).err = none →
      ∀ ev ∈ (TearDownAddressIPIfNetworkTierMismatch svc am s).trace,
        isDeleteCall ev = false → isNonNotFoundFailure ev = false) :=
  ⟨releaseAddress_error_events svc am s,
   fun h => holdAddress_error_events svc am s h,
   fun h => tearDown_error_events svc am s h⟩

/-- Counterexample for C3 as stated: in the concrete run over
`badDeleteSvc`, the tear-down's delete call fails with an unclassified
(non-NotFound) error, yet the operation returns nil. -/
theorem claim_C3_counterexample :
    (TearDownAddressIPIfNetworkTierMismatch badDeleteSvc am0 ()).err = none ∧
    ((TearDownAddressIPIfNetworkTierMismatch badDeleteSvc am0 ()).trace.any
      isNonNotFoundFailure) = true := by decide

/-- Witness for C3 (amended): in the concrete conflict run, which returns
nil, the failed reservation attempt is benign (its error is Conflict). -/
theorem claim_C3_witness :
    benignEvent (CallEv.reserve (mkNewAddr am0) am0.region (some ErrKind.conflict)) :=
  (claim_C3_error_propagation conflictSvc am0 ()).2.1 rfl _ (by decide)

/-- Every delete issued inside `TearDownAddressIPIfNetworkTierMismatch`
passes `am.targetIP` — not the configured region — in the region argument
position of `DeleteRegionAddress` (source line 257). -/
theorem tearDown_delete_region_is_targetIP {σ : Type} (svc : Svc σ) (am : AddressManager)
    (s : σ) :
    ∀ n r res, CallEv.delete n r res ∈ (TearDownAddressIPIfNetworkTierMismatch svc am s).trace →
      r = am.targetIP := by
  generalize hout : TearDownAddressIPIfNetworkTierMismatch svc am s = out
  obtain ⟨err, am2, st, tr⟩ := out
  simp only [TearDownAddressIPIfNetworkTierMismatch] at hout
  repeat' split at hout <;> try simp_all
  all_goals obtain ⟨-, ham, -, htr⟩ := hout
  all_goals subst htr
  all_goals try subst ham
  all_goals intro n r res hmem
  all_goals simp only [List.mem_cons, List.not_mem_nil, or_false] at hmem
  all_goals rcases hmem with h1 | h1
  all_goals try simp_all

/-- Every delete issued inside `HoldAddress` passes the configured region. -/
theorem holdAddress_delete_region {σ : Type} (svc : Svc σ) (am : AddressManager) (s : σ) :
    ∀ n r res, CallEv.delete n r res ∈ (HoldAddress svc am s).trace → r = am.region := by
  have hens : ∀ (t : σ) (n r : String) (res : Option ErrKind),
      CallEv.delete n r res ∈ (ensureAddressReservation svc am t).trace → r = am.region := by
    intro t
    generalize hout : ensureAddressReservation svc am t = out
    obtain ⟨addr, ipt, err, am2, st, tr⟩ := out
    simp only [ensureAddressReservation] at hout
    repeat' split at hout <;> try simp_all
    all_goals obtain ⟨-, -, -, ham, -, htr⟩ := hout
    all_goals subst htr
    all_goals try subst ham
    all_goals intro n r res hmem
    all_goals simp only [List.mem_cons, List.not_mem_nil, or_false] at hmem
    all_goals rcases hmem with h1 | h1
    all_goals try simp_all
  generalize hout : HoldAddress svc am s = out
  obtain ⟨addr, ipt, err, am2, st, tr⟩ := out
  simp only [HoldAddress] at hout
  repeat' split at hout <;> try simp_all
  all_goals obtain ⟨-, -, -, ham, -, htr⟩ := hout
  all_goals subst htr
  all_goals try subst ham
  all_goals intro n r res hmem
  all_goals simp only [List.mem_cons, List.not_mem_nil, or_false] at hmem
  all_goals (first
    | (rcases hmem with h1 | h1 | hmem1)
    | (rcases hmem with h1 | hmem1))
  all_goals (first
    | (exact hens _ _ _ _ hmem1)
    | simp_all)

/-- Claim C2 evaluated at a failing input: with region `us-west1` and target
IP `1.2.3.4`, the tear-down's delete call passes the target IP, not the
configured region, as the region argument of `DeleteRegionAddress`. -/
theorem claim_C2_teardown_delete_region_bug :
    am0.region = "us-west1" ∧
    CallEv.delete wrongTierRec.name am0.targetIP (some ErrKind.other) ∈
      (TearDownAddressIPIfNetworkTierMismatch badDeleteSvc am0 ()).trace ∧
    am0.targetIP ≠ am0.region := by decide

/-! ## The idempotence claim over the concrete service model -/


theorem lookupByName_name {s : List Address} {n : String} {a : Address}
    (h : lookupByName s n = some a) : a.name = n := by
  simpa using List.find?_some h

theorem lookupByIP_addr {s : List Address} {ip : String} {a : Address}
    (h : lookupByIP s ip = some a) : a.address = ip := by
  simpa using List.find?_some h

theorem lookupByIP_mem {s : List Address} {ip : String} {a : Address}
    (h : lookupByIP s ip = some a) : a ∈ s :=
  List.mem_of_find?_eq_some h

theorem lookupByName_filter (s : List Address) (n : String) :
    lookupByName (s.filter fun a => !(a.name == n)) n = none := by
  rw [lookupByName, List.find?_eq_none]
  intro x hx
  have hp := (List.mem_filter.1 hx).2
  simpa using hp

theorem not_name_of_lookupByName_none {s : List Address} {n : String}
    (h : lookupByName s n = none) : ∀ u ∈ s, u.name ≠ n := by
  rw [lookupByName, List.find?_eq_none] at h
  intro u hu
  simpa using h u hu

theorem gce_getName_found {s : List Address} {n : String} {a : Address} (r : String)
    (h : lookupByName s n = some a) :
    gceSvc.getRegionAddress s n r = (GetRes.found a, s) := by
  simp [gceSvc, h]

theorem gce_getName_none {s : List Address} {n : String} (r : String)
    (h : lookupByName s n = none) :
    gceSvc.getRegionAddress s n r = (GetRes.err ErrKind.notFound, s) := by
  simp [gceSvc, h]

theorem gce_getIP_found {s : List Address} {ip : String} {a : Address} (r : String)
    (h : lookupByIP s ip = some a) :
    gceSvc.getRegionAddressByIP s r ip = (GetRes.found a, s) := by
  simp [gceSvc, h]



theorem gce_reserve_nameTaken {s : List Address} {a : Address} (r : String)
    (h : (lookupByName s a.name).isSome = true) :
    gceSvc.reserveRegionAddress s a r = (some ErrKind.conflict, s) := by
  simp [gceSvc, h]

theorem gce_reserve_ok_auto {s : List Address} {a : Address} (r : String)
    (hn : lookupByName s a.name = none) (ha : a.address = "") :
    gceSvc.reserveRegionAddress s a r = (none, reservedRecord s a :: s) := by
  simp [gceSvc, hn, ha]

theorem gce_reserve_ok_ip {s : List Address} {a : Address} (r : String)
    (hn : lookupByName s a.name = none) (hip : lookupByIP s a.address = none) :
    gceSvc.reserveRegionAddress s a r = (none, reservedRecord s a :: s) := by
  simp [gceSvc, hn, hip]

theorem gce_reserve_ipTaken {s : List Address} {a : Address} (r : String)
    (hn : lookupByName s a.name = none) (ha : a.address ≠ "")
    (hip : (lookupByIP s a.address).isSome = true) :
    gceSvc.reserveRegionAddress s a r =
      (some (if a.addressType == SchemeInternal then ErrKind.conflict else ErrKind.badRequest),
        s) := by
  simp [gceSvc, hn, ha, hip]



theorem reservedRecord_mkNewAddr_name (am : AddressManager) (t : List Address) :
    (reservedRecord t (mkNewAddr am)).name = am.name := rfl

theorem ensure_gce_auto (am : AddressManager) (t : List Address)
    (hname : lookupByName t am.name = none) (htip : am.targetIP = "") :
    ensureAddressReservation gceSvc am t =
      { address := (reservedRecord t (mkNewAddr am)).address
        ipType := IPAddressType.IPAddrManaged, err := none, am := am
        state := reservedRecord t (mkNewAddr am) :: t
        trace := [CallEv.reserve (mkNewAddr am) am.region none,
                  CallEv.getByName am.name am.region
                    (GetRes.found (reservedRecord t (mkNewAddr am)))] } := by
  have hres : gceSvc.reserveRegionAddress t (mkNewAddr am) am.region =
      (none, reservedRecord t (mkNewAddr am) :: t) :=
    gce_reserve_ok_auto am.region hname (by simp [mkNewAddr, htip])
  have hget : lookupByName (reservedRecord t (mkNewAddr am) :: t) am.name =
      some (reservedRecord t (mkNewAddr am)) :=
    List.find?_cons_of_pos _ (by simp [reservedRecord, mkNewAddr])
  have haddr : (mkNewAddr am).address = "" := by simp [mkNewAddr, htip]
  have hnm : (mkNewAddr am).name = am.name := rfl
  simp only [ensureAddressReservation, hres]
  simp [haddr, hnm, gce_getName_found am.region hget]

theorem ensure_gce_newip (am : AddressManager) (t : List Address)
    (hname : lookupByName t am.name = none) (htip : am.targetIP ≠ "")
    (hip : lookupByIP t am.targetIP = none) :
    ensureAddressReservation gceSvc am t =
      { address := am.targetIP
        ipType := IPAddressType.IPAddrManaged, err := none, am := am
        state := reservedRecord t (mkNewAddr am) :: t
        trace := [CallEv.reserve (mkNewAddr am) am.region none] } := by
  have hres : gceSvc.reserveRegionAddress t (mkNewAddr am) am.region =
      (none, reservedRecord t (mkNewAddr am) :: t) :=
    gce_reserve_ok_ip am.region hname (by simpa [mkNewAddr] using hip)
  have haddr : (mkNewAddr am).address = am.targetIP := rfl
  simp only [ensureAddressReservation, hres]
  simp [haddr, htip]

theorem ensure_gce_conflict (am : AddressManager) (t : List Address) (u : Address)
    (hname : lookupByName t am.name = none) (htip : am.targetIP ≠ "")
    (hip : lookupByIP t am.targetIP = some u)
    (hval : validateAddress am u = none) :
    ensureAddressReservation gceSvc am t =
      { address := u.address
        ipType := IPAddressType.IPAddrUnmanaged, err := none
        am := { am with tryRelease := false }
        state := t
        trace := [CallEv.reserve (mkNewAddr am) am.region
                    (some (if am.addressType == SchemeInternal then ErrKind.conflict
                           else ErrKind.badRequest)),
                  CallEv.getByIP am.region am.targetIP (GetRes.found u)] } := by
  have hres : gceSvc.reserveRegionAddress t (mkNewAddr am) am.region =
      (some (if am.addressType == SchemeInternal then ErrKind.conflict else ErrKind.badRequest),
        t) := by
    have := gce_reserve_ipTaken (a := mkNewAddr am) am.region hname
      (by simpa [mkNewAddr] using htip) (by simp [mkNewAddr, hip])
    simpa [mkNewAddr] using this
  have humem : u ∈ t := lookupByIP_mem hip
  have hune : u.name ≠ am.name := not_name_of_lookupByName_none hname u humem
  have hmng : isManagedAddress am u = false := by
    simp [isManagedAddress, hune]
  simp only [ensureAddressReservation, hres]
  rcases h : (am.addressType == SchemeInternal) with _ | _ <;>
    simp [h, isNetworkTierMismatchGCEError, isHTTPErrorCode, htip,
      gce_getIP_found am.region hip, hval, hmng]



theorem toGCE_premium : toGCEValue NetworkTierPremium = "PREMIUM" := by decide

theorem toGCE_standard : toGCEValue NetworkTierStandard = "STANDARD" := by decide

theorem validateAddress_none (am : AddressManager) (addr : Address)
    (h1 : am.targetIP = "" ∨ am.targetIP = addr.address)
    (h2 : addr.addressType = am.addressType)
    (h3 : addr.networkTier = toGCEValue am.networkTier) :
    validateAddress am addr = none := by
  unfold validateAddress
  rcases h1 with h1 | h1 <;> simp [h1, h2, h3]

theorem validate_reservedRecord (am : AddressManager) (t : List Address)
    (htier : am.networkTier = NetworkTierPremium ∨
      (am.networkTier = NetworkTierStandard ∧ am.addressType = SchemeExternal)) :
    validateAddress am (reservedRecord t (mkNewAddr am)) = none := by
  apply validateAddress_none
  · by_cases htip : am.targetIP = ""
    · exact Or.inl htip
    · refine Or.inr ?_
      simp [reservedRecord, mkNewAddr, htip]
  · rfl
  · rcases htier with hp | ⟨hs, he⟩
    · by_cases hext : am.addressType = SchemeExternal <;>
        simp [reservedRecord, mkNewAddr, hext, hp, toGCE_premium]
    · simp [reservedRecord, mkNewAddr, he, hs, toGCE_standard]

theorem hold_gce_notFound (am : AddressManager) (s : List Address)
    (h : lookupByName s am.name = none) :
    HoldAddress gceSvc am s =
      { ensureAddressReservation gceSvc am s with
        trace := CallEv.getByName am.name am.region (GetRes.err ErrKind.notFound) ::
          (ensureAddressReservation gceSvc am s).trace } := by
  simp only [HoldAddress, gce_getName_none am.region h]
  simp [isNotFoundError]

theorem hold_gce_found_valid (am : AddressManager) (s : List Address) (a : Address)
    (h : lookupByName s am.name = some a) (hval : validateAddress am a = none) :
    HoldAddress gceSvc am s =
      { address := a.address, ipType := IPAddressType.IPAddrManaged, err := none
        am := am, state := s
        trace := [CallEv.getByName am.name am.region (GetRes.found a)] } := by
  simp only [HoldAddress, gce_getName_found am.region h]
  simp [hval]

theorem hold_gce_found_invalid (am : AddressManager) (s : List Address) (a : Address)
    (verr : MgrErr) (h : lookupByName s am.name = some a)
    (hval : validateAddress am a = some verr) :
    HoldAddress gceSvc am s =
      { ensureAddressReservation gceSvc am (s.filter fun x => !(x.name == am.name)) with
        trace := CallEv.getByName am.name am.region (GetRes.found a) ::
          CallEv.delete a.name am.region none ::
          (ensureAddressReservation gceSvc am
            (s.filter fun x => !(x.name == am.name))).trace } := by
  have haname : a.name = am.name := lookupByName_name h
  have hdel : gceSvc.deleteRegionAddress s a.name am.region =
      (none, s.filter fun x => !(x.name == am.name)) := by
    rw [haname]
    simp [gceSvc, h]
  simp only [HoldAddress, gce_getName_found am.region h, hval, hdel]



theorem ensure_gce_conflict_invalid (am : AddressManager) (t : List Address) (u : Address)
    (verr : MgrErr)
    (hname : lookupByName t am.name = none) (htip : am.targetIP ≠ "")
    (hip : lookupByIP t am.targetIP = some u)
    (hval : validateAddress am u = some verr) :
    ensureAddressReservation gceSvc am t =
      { address := ""
        ipType := IPAddressType.IPAddrUndefined
        err := some (MgrErr.validationFailed u.name verr)
        am := am
        state := t
        trace := [CallEv.reserve (mkNewAddr am) am.region
                    (some (if am.addressType == SchemeInternal then ErrKind.conflict
                           else ErrKind.badRequest)),
                  CallEv.getByIP am.region am.targetIP (GetRes.found u)] } := by
  have hres : gceSvc.reserveRegionAddress t (mkNewAddr am) am.region =
      (some (if am.addressType == SchemeInternal then ErrKind.conflict else ErrKind.badRequest),
        t) := by
    have := gce_reserve_ipTaken (a := mkNewAddr am) am.region hname
      (by simpa [mkNewAddr] using htip) (by simp [mkNewAddr, hip])
    simpa [mkNewAddr] using this
  simp only [ensureAddressReservation, hres]
  rcases h : (am.addressType == SchemeInternal) with _ | _ <;>
    simp [h, isNetworkTierMismatchGCEError, isHTTPErrorCode, htip,
      gce_getIP_found am.region hip, hval]

theorem lookupByName_cons_reserved (am : AddressManager) (t t2 : List Address) :
    lookupByName (reservedRecord t (mkNewAddr am) :: t2) am.name =
      some (reservedRecord t (mkNewAddr am)) :=
  List.find?_cons_of_pos _ (by simp [reservedRecord, mkNewAddr])

theorem ensure_second (am : AddressManager) (t : List Address)
    (hname : lookupByName t am.name = none)
    (htier : am.networkTier = NetworkTierPremium ∨
      (am.networkTier = NetworkTierStandard ∧ am.addressType = SchemeExternal)) :
    ((ensureAddressReservation gceSvc am t).ipType = IPAddressType.IPAddrManaged →
      (HoldAddress gceSvc (ensureAddressReservation gceSvc am t).am
          (ensureAddressReservation gceSvc am t).state).address =
        (ensureAddressReservation gceSvc am t).address ∧
      (HoldAddress gceSvc (ensureAddressReservation gceSvc am t).am
          (ensureAddressReservation gceSvc am t).state).ipType = IPAddressType.IPAddrManaged ∧
      ((HoldAddress gceSvc (ensureAddressReservation gceSvc am t).am
          (ensureAddressReservation gceSvc am t).state).trace.all
        (fun ev => !(isDeleteCall ev) && !(isReserveCall ev))) = true) ∧
    ((ensureAddressReservation gceSvc am t).ipType = IPAddressType.IPAddrUnmanaged →
      (HoldAddress gceSvc (ensureAddressReservation gceSvc am t).am
          (ensureAddressReservation gceSvc am t).state).address =
        (ensureAddressReservation gceSvc am t).address ∧
      (HoldAddress gceSvc (ensureAddressReservation gceSvc am t).am
          (ensureAddressReservation gceSvc am t).state).ipType =
        IPAddressType.IPAddrUnmanaged ∧
      ((HoldAddress gceSvc (ensureAddressReservation gceSvc am t).am
          (ensureAddressReservation gceSvc am t).state).trace.any isReserveCall) = true) ∧
    ((ensureAddressReservation gceSvc am t).ipType = IPAddressType.IPAddrUndefined →
      (HoldAddress gceSvc (ensureAddressReservation gceSvc am t).am
          (ensureAddressReservation gceSvc am t).state).address =
        (ensureAddressReservation gceSvc am t).address ∧
      (HoldAddress gceSvc (ensureAddressReservation gceSvc am t).am
          (ensureAddressReservation gceSvc am t).state).ipType =
        IPAddressType.IPAddrUndefined) := by
  by_cases htip : am.targetIP = ""
  · -- auto-assignment
    rw [ensure_gce_auto am t hname htip]
    have hsecond := hold_gce_found_valid am (reservedRecord t (mkNewAddr am) :: t)
      (reservedRecord t (mkNewAddr am)) (lookupByName_cons_reserved am t t)
      (validate_reservedRecord am t htier)
    refine ⟨fun _ => ?_, fun hun => by simp at hun, fun hun => by simp at hun⟩
    simp only [hsecond]
    simp [isDeleteCall, isReserveCall, isGetByNameCall]
  · rcases hip : lookupByIP t am.targetIP with _ | u
    · -- fresh reservation with explicit IP
      rw [ensure_gce_newip am t hname htip hip]
      have hsecond := hold_gce_found_valid am (reservedRecord t (mkNewAddr am) :: t)
        (reservedRecord t (mkNewAddr am)) (lookupByName_cons_reserved am t t)
        (validate_reservedRecord am t htier)
      refine ⟨fun _ => ?_, fun hun => by simp at hun, fun hun => by simp at hun⟩
      simp only [hsecond]
      simp [reservedRecord, mkNewAddr, htip, isDeleteCall, isReserveCall]
    · rcases hval : validateAddress am u with _ | verr
      · -- user-owned conflict: Unmanaged
        rw [ensure_gce_conflict am t u hname htip hip hval]
        refine ⟨fun hm => by simp at hm, fun _ => ?_, fun hun => by simp at hun⟩
        have hname2 : lookupByName t ({ am with tryRelease := false } : AddressManager).name =
            none := hname
        have hsecond := hold_gce_notFound { am with tryRelease := false } t hname2
        have hens2 := ensure_gce_conflict { am with tryRelease := false } t u hname htip hip hval
        simp only [hsecond, hens2]
        simp [isReserveCall]
      · -- conflict with invalid record: Undefined
        rw [ensure_gce_conflict_invalid am t u verr hname htip hip hval]
        refine ⟨fun hm => by simp at hm, fun hun => by simp at hun, fun _ => ?_⟩
        have hsecond := hold_gce_notFound am t hname
        have hens2 := ensure_gce_conflict_invalid am t u verr hname htip hip hval
        simp only [hsecond, hens2]
        simp



/-- Claim C8 (amended): over the concrete sequentially consistent service
model, calling `HoldAddress` twice in succession with an unchanged spec and
no external interference returns the same address and the same
classification both times (for Managed, Unmanaged and Undefined outcomes
alike, given a well-formed tier: Premium, or Standard with external
scheme).  When the first call returns Managed, the second call issues no
delete and no reserve call.  When the first call returns Unmanaged, the
second call re-issues the reservation attempt (which fails with the same
conflict), contradicting the claim's "no additional reserve call". -/
theorem claim_C8_idempotence_amended (am : AddressManager) (s : List Address)
    (htier : am.networkTier = NetworkTierPremium ∨
      (am.networkTier = NetworkTierStandard ∧ am.addressType = SchemeExternal)) :
    ((HoldAddress gceSvc am s).ipType = IPAddressType.IPAddrManaged →
      (HoldAddress gceSvc (HoldAddress gceSvc am s).am
          (HoldAddress gceSvc am s).state).address = (HoldAddress gceSvc am s).address ∧
      (HoldAddress gceSvc (HoldAddress gceSvc am s).am
          (HoldAddress gceSvc am s).state).ipType = IPAddressType.IPAddrManaged ∧
      ((HoldAddress gceSvc (HoldAddress gceSvc am s).am
          (HoldAddress gceSvc am s).state).trace.all
        (fun ev => !(isDeleteCall ev) && !(isReserveCall ev))) = true) ∧
    ((HoldAddress gceSvc am s).ipType = IPAddressType.IPAddrUnmanaged →
      (HoldAddress gceSvc (HoldAddress gceSvc am s).am
          (HoldAddress gceSvc am s).state).address = (HoldAddress gceSvc am s).address ∧
      (HoldAddress gceSvc (HoldAddress gceSvc am s).am
          (HoldAddress gceSvc am s).state).ipType = IPAddressType.IPAddrUnmanaged ∧
      ((HoldAddress gceSvc (HoldAddress gceSvc am s).am
          (HoldAddress gceSvc am s).state).trace.any isReserveCall) = true) ∧
    ((HoldAddress gceSvc am s).ipType = IPAddressType.IPAddrUndefined →
      (HoldAddress gceSvc (HoldAddress gceSvc am s).am
          (HoldAddress gceSvc am s).state).address = (HoldAddress gceSvc am s).address ∧
      (HoldAddress gceSvc (HoldAddress gceSvc am s).am
          (HoldAddress gceSvc am s).state).ipType = IPAddressType.IPAddrUndefined) := by
  rcases hn : lookupByName s am.name with _ | a
  · rw [hold_gce_notFound am s hn]
    simpa using ensure_second am s hn htier
  · rcases hv : validateAddress am a with _ | verr
    · rw [hold_gce_found_valid am s a hn hv]
      refine ⟨fun _ => ?_, fun hun => by simp at hun, fun hun => by simp at hun⟩
      rw [hold_gce_found_valid am s a hn hv]
      simp [isDeleteCall, isReserveCall]
    · rw [hold_gce_found_invalid am s a verr hn hv]
      simpa using ensure_second am (s.filter fun x => !(x.name == am.name))
        (lookupByName_filter s am.name) htier

/-- Initial store for the idempotence counterexample: the user already
holds the manager's target IP under a foreign name. -/
def gceState0 : List Address := [userRec]

/-- Counterexample for C8 as stated: with the user-owned record holding the
target IP, two successive `HoldAddress` calls return the same address and
classification (Unmanaged) with no external interference, yet the second
invocation does issue a reserve call. -/
theorem claim_C8_counterexample :
    ((HoldAddress gceSvc (HoldAddress gceSvc am0 gceState0).am
        (HoldAddress gceSvc am0 gceState0).state).trace.any isReserveCall) = true ∧
    (HoldAddress gceSvc (HoldAddress gceSvc am0 gceState0).am
        (HoldAddress gceSvc am0 gceState0).state).address =
      (HoldAddress gceSvc am0 gceState0).address ∧
    (HoldAddress gceSvc (HoldAddress gceSvc am0 gceState0).am
        (HoldAddress gceSvc am0 gceState0).state).ipType =
      (HoldAddress gceSvc am0 gceState0).ipType := by decide

/-- Witness for C8 (amended): the Unmanaged conjunct of the amended
idempotence theorem instantiated at the concrete conflict store. -/
theorem claim_C8_witness :
    (HoldAddress gceSvc (HoldAddress gceSvc am0 gceState0).am
        (HoldAddress gceSvc am0 gceState0).state).address =
      (HoldAddress gceSvc am0 gceState0).address ∧
    (HoldAddress gceSvc (HoldAddress gceSvc am0 gceState0).am
        (HoldAddress gceSvc am0 gceState0).state).ipType = IPAddressType.IPAddrUnmanaged ∧
    ((HoldAddress gceSvc (HoldAddress gceSvc am0 gceState0).am
        (HoldAddress gceSvc am0 gceState0).state).trace.any isReserveCall) = true :=
  (claim_C8_idempotence_amended am0 gceState0 (Or.inl rfl)).2.1 (by decide)


end IngressGce
